import Mathlib

/-!
Shallow embedding of the 389ds-log-analyser core pipeline
(`src/log_parser.py` and `src/data_model.py`).

Python strings are modelled over their character lists; `re` pattern matching
is replaced by equivalent deterministic scanners (the patterns involved have
no observable backtracking, as argued at each definition).  Fallible Python
code (`return None` as well as exceptions that `build_data_model` catches and
turns into a dropped line) is modelled with `Option`.
-/

namespace LogAnalyser

/-- The absolute instant produced by `parse_timestamp`: a Python `datetime`
with calendar fields, microseconds, and a fixed-offset `tzinfo` recorded in
minutes east of UTC. -/
structure Timestamp where
  year : Nat
  month : Nat
  day : Nat
  hour : Nat
  minute : Nat
  second : Nat
  microsecond : Nat
  offsetMinutes : Int
deriving DecidableEq

/-- A Python value stored in a parsed attribute dictionary: the parser only
ever stores `str`, `int` (after numeric coercion) or the `datetime` placed
under the `timestamp` key by `parse_log_line`. -/
inductive Value where
  | str (s : String)
  | int (n : Int)
  | ts (t : Timestamp)
deriving DecidableEq

/-- Python-`dict` lookup on an association list whose keys are unique
(first match; insertion keeps keys unique). -/
def alget {α β : Type} [DecidableEq α] : List (α × β) → α → Option β
  | [], _ => none
  | (k', v) :: d, k => if k' = k then some v else alget d k

/-- Python-`dict` assignment `d[k] = v`: update in place if the key exists
(keeping its position), else append. -/
def alset {α β : Type} [DecidableEq α] : List (α × β) → α → β → List (α × β)
  | [], k, v => [(k, v)]
  | (k', v') :: d, k, v => if k' = k then (k', v) :: d else (k', v') :: alset d k v

/-- A parsed attribute dictionary. -/
abbrev Dict := List (String × Value)

/-! ## Character classes (ASCII fragment of Python's `\d`, `\w`, `\s`,
`str.isdigit`; the log format is ASCII) -/

def isDigitChar (c : Char) : Bool := '0' ≤ c && c ≤ '9'

def isWordChar (c : Char) : Bool := c.isAlpha || isDigitChar c || c = '_'

def isSpaceChar (c : Char) : Bool :=
  c = ' ' || c = '\t' || c = '\n' || c = '\r' || c = '\x0b' || c = '\x0c'

def digitVal (c : Char) : Nat := c.toNat - 48

/-- Value of a run of decimal digits (`int(...)` on a digit string). -/
def natOfDigitChars (ds : List Char) : Nat := ds.foldl (fun a c => a * 10 + digitVal c) 0

/-- Python `str.strip()` on a character list. -/
def stripChars (cs : List Char) : List Char :=
  ((cs.dropWhile isSpaceChar).reverse.dropWhile isSpaceChar).reverse

/-- Python `str.strip()`. -/
def stripStr (s : String) : String := String.mk (stripChars s.toList)

/-- Python `str.capitalize()`: first character upper-cased, the rest
lower-cased. -/
def pyCapitalize (s : String) : String :=
  match s.toList with
  | [] => ""
  | c :: cs => String.mk (c.toUpper :: cs.map Char.toLower)

/-! ## `parse_timestamp` (log_parser.py lines 10-55)

`TIMESTAMP_RE` is
`(\d{2})/(\w{3})/(\d{4}):(\d{2}):(\d{2}):(\d{2})(\.\d+)?\s*([Zz]|[+-]\d{4})$`,
anchored on both sides.  All fields are fixed width except the greedy
`(\.\d+)?` and `\s*`, whose maximal-munch semantics are exact here because
the following alternatives (`\s*`, `[Zz]|[+-]\d{4}`) can never start with a
digit resp. a whitespace character, so backtracking can never produce a
match that maximal munch misses. -/

def MONTH_MAP : List (String × Nat) :=
  [("Jan", 1), ("Feb", 2), ("Mar", 3), ("Apr", 4), ("May", 5), ("Jun", 6),
   ("Jul", 7), ("Aug", 8), ("Sep", 9), ("Oct", 10), ("Nov", 11), ("Dec", 12)]

/-- Model of `MONTH_MAP.get(month_str.capitalize())`. -/
def monthLookup (s : String) : Option Nat := alget MONTH_MAP (pyCapitalize s)

/-- Read exactly `n` decimal digits, accumulating their value; `none` if a
non-digit (or end of input) is hit first. -/
def readDigits : Nat → Nat → List Char → Option (Nat × List Char)
  | 0, acc, cs => some (acc, cs)
  | _ + 1, _, [] => none
  | n + 1, acc, c :: cs =>
    if isDigitChar c then readDigits n (acc * 10 + digitVal c) cs else none

def expectChar (c : Char) : List Char → Option (List Char)
  | [] => none
  | c' :: cs => if c' = c then some cs else none

/-- Pattern `(\w{3})`: exactly three word characters. -/
def readWord3 : List Char → Option (String × List Char)
  | c1 :: c2 :: c3 :: cs =>
    if isWordChar c1 && isWordChar c2 && isWordChar c3 then
      some (String.mk [c1, c2, c3], cs)
    else none
  | _ => none

/-- Model of `fractional[1:7].ljust(6, '0')` turned into an integer: the digit run
after the dot, truncated to six digits and right-padded with zeros. -/
def microOfFrac (ds : List Char) : Nat :=
  natOfDigitChars (ds.take 6 ++ List.replicate (6 - (ds.take 6).length) '0')

/-- Pattern `(\.\d+)?`: consume a dot followed by a maximal nonempty digit run, if
present, and convert it to microseconds; otherwise consume nothing and the
fraction is zero. -/
def readFrac (cs : List Char) : Nat × List Char :=
  match cs with
  | '.' :: rest =>
    let ds := rest.takeWhile isDigitChar
    if ds.isEmpty then (0, cs) else (microOfFrac ds, rest.drop ds.length)
  | _ => (0, cs)

/-- Pattern `([Zz]|[+-]\d{4})$`: the whole remaining input must be the timezone.
The offset is `sign * (HH hours + MM minutes)`, in minutes. -/
def readTz (cs : List Char) : Option Int :=
  if cs = ['Z'] || cs = ['z'] then some 0
  else
    match cs with
    | [] => none
    | c :: rest =>
      if c = '+' || c = '-' then
        match readDigits 2 0 rest with
        | none => none
        | some (hh, rest2) =>
          match readDigits 2 0 rest2 with
          | none => none
          | some (mm, rest3) =>
            if rest3 = [] then
              some (if c = '-' then -((hh : Int) * 60 + mm) else (hh : Int) * 60 + mm)
            else none
      else none

/-- Leap-year rule used by Python's `datetime`. -/
def daysInMonth (y m : Nat) : Nat :=
  if m = 2 then (if y % 4 = 0 ∧ (y % 100 ≠ 0 ∨ y % 400 = 0) then 29 else 28)
  else if m = 4 ∨ m = 6 ∨ m = 9 ∨ m = 11 then 30
  else 31

/-- Body of `parse_timestamp` on a character list.  A failing regex match or unknown
month abbreviation is Python's `return None`; field values that make the
`datetime(...)` or `timezone(...)` constructor raise (`ValueError`) are also
`none` here — in `build_data_model` both outcomes alike drop the line (the
exception is caught by the `try`/`except` around `parse_log_line`). -/
def parse_timestamp_chars (cs : List Char) : Option Timestamp := do
  let (dd, cs) ← readDigits 2 0 cs
  let cs ← expectChar '/' cs
  let (mon, cs) ← readWord3 cs
  let cs ← expectChar '/' cs
  let (yyyy, cs) ← readDigits 4 0 cs
  let cs ← expectChar ':' cs
  let (hh, cs) ← readDigits 2 0 cs
  let cs ← expectChar ':' cs
  let (mi, cs) ← readDigits 2 0 cs
  let cs ← expectChar ':' cs
  let (ss, cs) ← readDigits 2 0 cs
  let (micro, cs) := readFrac cs
  let cs := cs.dropWhile isSpaceChar
  let off ← readTz cs
  let mo ← monthLookup mon
  if 1 ≤ yyyy ∧ yyyy ≤ 9999 ∧ 1 ≤ dd ∧ dd ≤ daysInMonth yyyy mo ∧
      hh ≤ 23 ∧ mi ≤ 59 ∧ ss ≤ 59 ∧ -1440 < off ∧ off < 1440 then
    some ⟨yyyy, mo, dd, hh, mi, ss, micro, off⟩
  else none

/-- Model of `parse_timestamp(ts_str)`. -/
def parse_timestamp (s : String) : Option Timestamp := parse_timestamp_chars s.toList

/-! ## `parse_key_value_message` (log_parser.py lines 57-135)

The key=value scanner is `re.finditer` with the pattern
`(\w+)=("(?:[^"\\]|\\.)*"|\S+)`.  `finditer` returns the leftmost match at
or after the current position and resumes after it.  At a given position the
pattern matches iff a nonempty maximal `\w` run is followed by `=` and a
value: backtracking inside `\w+` can never help, because every shorter
prefix of the run is followed by a word character, which is not `=`.  The
value tries the quoted alternative first (closing at the first unescaped
quote — the starred class cannot cross one) and falls back to a maximal
nonempty `\S+` run. -/

/-- Match the body of `"(?:[^"\\]|\\.)*"` after the opening quote; returns
the matched characters (closing quote included) and the remainder. -/
def scanQuoted : List Char → Option (List Char × List Char)
  | [] => none
  | '"' :: cs => some (['"'], cs)
  | ['\\'] => none
  | '\\' :: c :: cs => (scanQuoted cs).map fun p => ('\\' :: c :: p.1, p.2)
  | c :: cs => (scanQuoted cs).map fun p => (c :: p.1, p.2)

/-- Pattern `\S+`: a maximal nonempty run of non-whitespace characters. -/
def matchSValue (cs : List Char) : Option (List Char × List Char) :=
  let run := cs.takeWhile (fun c => !isSpaceChar c)
  if run.isEmpty then none else some (run, cs.drop run.length)

/-- The value alternative `"(?:[^"\\]|\\.)*"|\S+`. -/
def matchValue (cs : List Char) : Option (List Char × List Char) :=
  match cs with
  | '"' :: rest =>
    match scanQuoted rest with
    | some (body, rest') => some ('"' :: body, rest')
    | none => matchSValue cs
  | _ => matchSValue cs

/-- Try to match `(\w+)=(value)` exactly at the head of `cs`. -/
def matchKVAt (cs : List Char) : Option (String × String × List Char) :=
  let key := cs.takeWhile isWordChar
  if key.isEmpty then none
  else
    match cs.drop key.length with
    | '=' :: afterEq =>
      match matchValue afterEq with
      | some (v, rest) => some (String.mk key, String.mk v, rest)
      | none => none
    | _ => none

/-- The `finditer` loop: all key=value matches in order, together with the
unmatched gap before each match and the trailing gap (Python's
`non_kv_parts`, which always has one more entry than there are matches).
The fuel starts at the input length; every recursion step consumes at least
one character (a successful match consumes the key, the `=`, and a nonempty
value), so the fuel-exhausted branch is unreachable. -/
def scanKVFuel : Nat → List Char → List (String × String) × List (List Char)
  | _, [] => ([], [[]])
  | 0, cs => ([], [cs])
  | fuel + 1, c :: cs' =>
    match matchKVAt (c :: cs') with
    | some (k, v, rest) =>
      let (ps, gaps) := scanKVFuel fuel rest
      ((k, v) :: ps, [] :: gaps)
    | none =>
      match scanKVFuel fuel cs' with
      | (ps, g :: gs) => (ps, (c :: g) :: gs)
      | (ps, []) => (ps, [[c]])

def scanKV (cs : List Char) : List (String × String) × List (List Char) :=
  scanKVFuel cs.length cs

/-- Model of `value[1:-1]` when the token starts and ends with a double quote
(Python's `startswith`/`endswith` check; a single `"` satisfies both and
strips to the empty string). -/
def stripQuotesL (cs : List Char) : List Char :=
  match cs with
  | [] => []
  | c :: _ => if c = '"' ∧ cs.getLast? = some '"' then (cs.drop 1).dropLast else cs

/-- The numeric-coercion test of log_parser.py lines 127-133: a nonempty
all-digit string, or `-` followed by a nonempty all-digit string, becomes an
`int`; everything else stays a string. -/
def coerceStr (s : String) : Value :=
  let cs := s.toList
  if !cs.isEmpty && cs.all isDigitChar then .int (natOfDigitChars cs)
  else
    match cs with
    | '-' :: rest =>
      if !rest.isEmpty && rest.all isDigitChar then .int (-(natOfDigitChars rest : Int))
      else .str s
    | _ => .str s

/-- The coercion pass only touches values that are still strings. -/
def coerceVal : Value → Value
  | .str s => coerceStr s
  | v => v

/-- Model of `" ".join(non_kv_parts)`. -/
def joinSpace : List (List Char) → List Char
  | [] => []
  | [g] => g
  | g :: gs => g ++ ' ' :: joinSpace gs

/-- Python `str.split(' ', 1)`: the text before the first space, and — when
a space exists — the text after it (which may itself contain spaces). -/
def splitFirstSpace (cs : List Char) : List Char × Option (List Char) :=
  let before := cs.takeWhile (fun c => c ≠ ' ')
  match cs.drop before.length with
  | [] => (before, none)
  | _ :: after => (before, some after)

def knownOpTypes : List String :=
  ["BIND", "RESULT", "SRCH", "UNBIND", "EXT", "Disconnect", "ADD", "DEL"]

/-- Match `connection from (\S+) to (\S+)` exactly at the head of `cs`.
Greedy `\S+` with maximal munch is exact: any shorter prefix of the run is
followed by a non-whitespace character, which cannot start the literal
`" to "`. -/
def dropLit : List Char → List Char → Option (List Char)
  | cs, [] => some cs
  | [], _ :: _ => none
  | c :: cs, l :: ls => if c = l then dropLit cs ls else none

def connInfoAt (cs : List Char) : Option (Value × Value) :=
  match dropLit cs ("connection from ".toList) with
  | none => none
  | some r1 =>
    match matchSValue r1 with
    | none => none
    | some (ip1, r2) =>
      match dropLit r2 (" to ".toList) with
      | none => none
      | some r3 =>
        match matchSValue r3 with
        | none => none
        | some (ip2, _) => some (.str (String.mk ip1), .str (String.mk ip2))

/-- Model of `re.search(r'connection from (\S+) to (\S+)', extra_text)`: the match at
the leftmost starting position where one exists. -/
def connInfoSearch : List Char → Option (Value × Value)
  | [] => none
  | c :: cs =>
    match connInfoAt (c :: cs) with
    | some r => some r
    | none => connInfoSearch cs

/-- The operation-type classification of log_parser.py lines 89-125, applied
to the key=value dictionary `data` and the joined-and-stripped extra text. -/
def classifyStage (data : Dict) (extraText : List Char) : Dict :=
  if extraText ≠ [] then
    let p := splitFirstSpace extraText
    let opType0 := if p.1.getLast? = some '-' then stripChars p.1.dropLast else p.1
    let opType := if String.mk opType0 = "closed" then "Disconnect" else String.mk opType0
    if opType ∈ knownOpTypes then
      let d := alset data "type" (.str opType)
      match p.2 with
      | some p1 =>
        alset d "extra_text" (.str (String.mk (p1.dropWhile (fun c => c == '-' || c == ' '))))
      | none => d
    else
      match connInfoSearch extraText with
      | some st =>
        alset (alset (alset (alset data "type" (.str "CONNECTION_INFO"))
          "source_ip" st.1) "destination_ip" st.2) "extra_text" (.str (String.mk extraText))
      | none =>
        alset (alset data "type" (.str "INFO")) "extra_text" (.str (String.mk extraText))
  else
    if (alget data "err").isSome ∧ (alget data "tag").isSome ∧ (alget data "nentries").isSome then
      alset data "type" (.str "RESULT")
    else
      alset data "type" (.str "INFO")

/-- Model of `parse_key_value_message(message)`: scan key=value pairs (stripping the
surrounding quotes of quoted values as they are stored), classify the
operation type from the leftover free text, then run the numeric-coercion
pass over every value of the resulting dictionary. -/
def parse_key_value_message (message : String) : Dict :=
  let pg := scanKV message.toList
  let data := pg.1.foldl
    (fun d kv => alset d kv.1 (.str (String.mk (stripQuotesL kv.2.toList)))) []
  (classifyStage data (stripChars (joinSpace pg.2))).map fun kv => (kv.1, coerceVal kv.2)

/-! ## `parse_log_line` (log_parser.py lines 137-155)

`LOG_LINE_RE` is `^\[(.*?)\] (.*)$`.  The lazy group stops at the first
`"] "` after the opening bracket.  `.` never matches a newline and the lines
fed to this function are stripped, so a line containing a newline cannot
match the outer pattern. -/

def splitBracketGo : List Char → List Char → Option (List Char × List Char)
  | [], _ => none
  | ']' :: ' ' :: rest, acc => some (acc.reverse, rest)
  | c :: rest, acc => splitBracketGo rest (c :: acc)

def parse_log_line (line : String) : Option Dict :=
  let cs := line.toList
  if cs.contains '\n' then none
  else
    match cs with
    | '[' :: rest =>
      match splitBracketGo rest [] with
      | none => none
      | some tsMsg =>
        match parse_timestamp_chars tsMsg.1 with
        | none => none
        | some t =>
          some (alset (parse_key_value_message (String.mk tsMsg.2)) "timestamp" (.ts t))
    | _ => none

/-! ## Data model (data_model.py) -/

/-- State of `Operation.__init__` (data_model.py lines 10-18). -/
structure Operation where
  op_num : Value
  op_type : Option Value
  timestamp : Option Value
  data : Dict
  extra_text : Option Value
  result : Option Dict := none
deriving DecidableEq

/-- State of `Connection.__init__` (data_model.py lines 46-56). -/
structure Connection where
  conn_num : Value
  bind_timestamp : Option Value := none
  unbind_timestamp : Option Value := none
  bind_dn : Option Value := none
  successful_bind : Bool := false
  operations : List (Value × Operation) := []
  source_ip : Option Value := none
  destination_ip : Option Value := none
deriving DecidableEq

def Connection.init (n : Value) : Connection := { conn_num := n }

/-- Model of `Connection.add_operation` (data_model.py lines 58-92), as a pure state
transformer.  The `isinstance(..., dict)` guards of the Python code are
always true in this embedding because `data` is a dictionary by type. -/
def Connection.add_operation (c : Connection) (op_num op_type timestamp : Option Value)
    (data : Dict) (extra_text : Option Value) : Connection :=
  if op_type = some (.str "CONNECTION_INFO") then
    { c with source_ip := alget data "source_ip", destination_ip := alget data "destination_ip" }
  else if op_type = some (.str "Disconnect") then
    { c with unbind_timestamp := timestamp }
  else
    match op_num with
    | none => c
    | some opn =>
      if op_type = some (.str "RESULT") then
        match alget c.operations opn with
        | none => c
        | some op =>
          let c1 := { c with operations := alset c.operations opn { op with result := some data } }
          if op.op_type = some (.str "BIND") ∧ alget data "err" = some (.int 0) then
            { c1 with
              successful_bind := true
              bind_timestamp := op.timestamp
              bind_dn :=
                match alget data "dn" with
                | some v => some v
                | none => alget op.data "dn" }
          else c1
      else
        match alget c.operations opn with
        | some _ => c
        | none =>
          { c with operations := alset c.operations opn ⟨opn, op_type, timestamp, data, extra_text, none⟩ }

/-- The connection registry built by `build_data_model`. -/
abbrev Registry := List (Value × Connection)

/-- The per-parsed-line body of the `build_data_model` loop (data_model.py
lines 124-137): skip events without a `conn` attribute, look up or create
the `Connection`, and feed the event (the whole parsed dictionary as the
data payload) to `add_operation`. -/
def processParsed (conns : Registry) (parsed : Dict) : Registry :=
  match alget parsed "conn" with
  | none => conns
  | some cid =>
    let c :=
      match alget conns cid with
      | some c => c
      | none => Connection.init cid
    alset conns cid (c.add_operation (alget parsed "op") (alget parsed "type")
      (alget parsed "timestamp") parsed (alget parsed "extra_text"))

/-- One iteration of the `build_data_model` line loop: blank lines are
skipped, the line is stripped and parsed, and a parse failure (a `None`
return as well as a raised exception, both caught there) drops the line with
no state change. -/
def processLine (conns : Registry) (line : String) : Registry :=
  let l := stripStr line
  if l.toList = [] then conns
  else
    match parse_log_line l with
    | none => conns
    | some parsed => processParsed conns parsed

/-- Model of `build_data_model` over the sequence of raw lines of the log file. -/
def build_data_model (lines : List String) : Registry := lines.foldl processLine []

/-- A sample stored BIND operation, used to instantiate the hypotheses of
the data-model theorems in their witnesses. -/
def demoBindOp : Operation :=
  ⟨.int 0, some (.str "BIND"), some (.ts ⟨2025, 6, 10, 21, 18, 6, 100000, 0⟩),
   [("dn", .str "uid=a")], none, none⟩

/-- A sample connection holding `demoBindOp` under operation id 0. -/
def demoConn : Connection := { conn_num := .int 1, operations := [(.int 0, demoBindOp)] }

/-- The raw value token of the last key=value match for a given key in a
scanned pair list (later Python `data[key] = value` assignments shadow
earlier ones). -/
def lastRawValue : List (String × String) → String → Option String
  | [], _ => none
  | kv :: ps, k =>
    match lastRawValue ps k with
    | some w => some w
    | none => if kv.1 = k then some kv.2 else none

/-! ## Spec-side constructions for the timestamp round-trip claim:
rendering a valid `(day, month, year, hour, minute, second, fraction, zone)`
tuple as a literal of the wire grammar `DD/Mon/YYYY:HH:MM:SS[.frac](Z|±HHMM)` -/

/-- Decimal digit character for a digit value. -/
def digitChar (k : Nat) : Char := Char.ofNat (48 + k)

/-- Two-digit zero-padded rendering of `n < 100`. -/
def twoDigits (n : Nat) : List Char := [digitChar (n / 10), digitChar (n % 10)]

/-- Four-digit zero-padded rendering of `n < 10000`. -/
def fourDigits (n : Nat) : List Char :=
  [digitChar (n / 1000), digitChar (n / 100 % 10), digitChar (n / 10 % 10), digitChar (n % 10)]

/-- A timezone literal of the wire grammar: `Z`, `z`, or `±HHMM`. -/
inductive ZoneLit where
  | utcZ
  | utcz
  | pos (hh mm : Nat)
  | neg (hh mm : Nat)

/-- The characters of a timezone literal. -/
def zoneChars : ZoneLit → List Char
  | .utcZ => ['Z']
  | .utcz => ['z']
  | .pos hh mm => '+' :: (twoDigits hh ++ twoDigits mm)
  | .neg hh mm => '-' :: (twoDigits hh ++ twoDigits mm)

/-- The offset a timezone literal denotes, in minutes:
`sign * (HH hours + MM minutes)`. -/
def zoneOffset : ZoneLit → Int
  | .utcZ => 0
  | .utcz => 0
  | .pos hh mm => (hh : Int) * 60 + mm
  | .neg hh mm => -((hh : Int) * 60 + mm)

/-- Well-formedness of the two-digit fields of a `±HHMM` literal. -/
def zoneDigitsOK : ZoneLit → Prop
  | .utcZ => True
  | .utcz => True
  | .pos hh mm => hh < 100 ∧ mm < 100
  | .neg hh mm => hh < 100 ∧ mm < 100

/-- The optional fractional part: nothing, or a dot followed by the given
digit characters. -/
def fracPart : Option (List Char) → List Char
  | none => []
  | some ds => '.' :: ds

/-- Render a timestamp literal of the wire grammar
`DD/Mon/YYYY:HH:MM:SS[.fraction](Z|±HHMM)` from its components. -/
def fmtTsChars (d : Nat) (mon : List Char) (y h mi s : Nat)
    (frac : Option (List Char)) (z : ZoneLit) : List Char :=
  twoDigits d ++ '/' :: (mon ++ '/' :: (fourDigits y ++ ':' ::
    (twoDigits h ++ ':' :: (twoDigits mi ++ ':' ::
      (twoDigits s ++ (fracPart frac ++ zoneChars z))))))

/-! ## Association-list (Python dict) lemmas -/

theorem alget_alset_self {α β : Type} [DecidableEq α] (d : List (α × β)) (k : α) (v : β) :
    alget (alset d k v) k = some v := by
  induction d with
  | nil => simp [alset, alget]
  | cons hd tl ih =>
    obtain ⟨k0, v0⟩ := hd
    by_cases h : k0 = k <;> simp [alset, alget, h, ih]

theorem alget_alset_ne {α β : Type} [DecidableEq α] (d : List (α × β)) (k k' : α) (v : β)
    (h : k' ≠ k) : alget (alset d k' v) k = alget d k := by
  induction d with
  | nil => simp [alset, alget, h]
  | cons hd tl ih =>
    obtain ⟨k0, v0⟩ := hd
    by_cases h0 : k0 = k'
    · subst h0; simp [alset, alget, h]
    · simp [alset, alget, h0, ih]

theorem alset_self {α β : Type} [DecidableEq α] (d : List (α × β)) (k : α) (v : β)
    (h : alget d k = some v) : alset d k v = d := by
  induction d with
  | nil => simp [alget] at h
  | cons hd tl ih =>
    obtain ⟨k0, v0⟩ := hd
    by_cases h0 : k0 = k
    · subst h0
      simp [alget] at h
      simp [alset, h]
    · simp [alget, h0] at h
      simp [alset, h0, ih h]

theorem alset_alset {α β : Type} [DecidableEq α] (d : List (α × β)) (k : α) (v w : β) :
    alset (alset d k v) k w = alset d k w := by
  induction d with
  | nil => simp [alset]
  | cons hd tl ih =>
    obtain ⟨k0, v0⟩ := hd
    by_cases h0 : k0 = k <;> simp [alset, h0, ih]

/-! ## Claim theorems -/

/-- C1, counterexample: the claim says the first Disconnect wins and a later
Disconnect is ignored, but feeding two Disconnect lines for connection 100
through `build_data_model` leaves `unbind_timestamp` equal to the SECOND
line's timestamp, which differs from the first line's. -/
theorem c1_counterexample :
    (alget (build_data_model
        ["[10/Jun/2025:21:18:07.200000Z] conn=100 op=-1 fd=12 closed",
         "[10/Jun/2025:21:18:08.500000Z] conn=100 op=-1 fd=12 closed"]) (.int 100)).map
      Connection.unbind_timestamp
      = some (some (.ts ⟨2025, 6, 10, 21, 18, 8, 500000, 0⟩))
    ∧ (⟨2025, 6, 10, 21, 18, 8, 500000, 0⟩ : Timestamp) ≠ ⟨2025, 6, 10, 21, 18, 7, 200000, 0⟩ := by
  constructor
  · rfl
  · decide

/-- C1, amended: `unbind_timestamp` is not set at most once — every
Disconnect event unconditionally overwrites it with that event's timestamp
(`self.unbind_timestamp = timestamp` with no "if unset" guard, data_model.py
line 68), so the LAST Disconnect observed wins. -/
theorem c1_amended (c : Connection) (op_num ts extra : Option Value) (data : Dict) :
    (c.add_operation op_num (some (.str "Disconnect")) ts data extra).unbind_timestamp = ts := by
  unfold Connection.add_operation
  rw [if_neg (by decide), if_pos rfl]

/-- C6: a RESULT event whose operation id is absent from the connection's
operations map (or which carries no operation id at all) is a complete
no-op: the returned `Connection` is the very same state, so no Operation is
created and neither the operations map, the bind fields, the ips nor
`unbind_timestamp` change.  The Lean model is a total function, mirroring
that the Python branch raises no exception. -/
theorem c6_orphan_result_noop (c : Connection) (opn : Value) (ts extra : Option Value)
    (data : Dict) (h : alget c.operations opn = none) :
    c.add_operation (some opn) (some (.str "RESULT")) ts data extra = c
    ∧ c.add_operation none (some (.str "RESULT")) ts data extra = c := by
  constructor
  · unfold Connection.add_operation
    rw [if_neg (by decide), if_neg (by decide)]
    simp [h]
  · unfold Connection.add_operation
    rw [if_neg (by decide), if_neg (by decide)]

/-- C7: feeding the identical RESULT event twice for one operation id is
idempotent — the second application returns the connection state of the
first application unchanged (in particular `successful_bind`, `bind_dn` and
`bind_timestamp` are unchanged; this proves equality of the whole state,
which is stronger than the claimed three fields). -/
theorem c7_result_idempotent (c : Connection) (op_num ts extra : Option Value) (data : Dict) :
    ((c.add_operation op_num (some (.str "RESULT")) ts data extra).add_operation
        op_num (some (.str "RESULT")) ts data extra)
      = c.add_operation op_num (some (.str "RESULT")) ts data extra := by
  cases op_num with
  | none =>
    have h : c.add_operation none (some (.str "RESULT")) ts data extra = c := by
      unfold Connection.add_operation
      rw [if_neg (by decide), if_neg (by decide)]
    rw [h, h]
  | some opn =>
    cases h : alget c.operations opn with
    | none =>
      have hc : c.add_operation (some opn) (some (.str "RESULT")) ts data extra = c := by
        unfold Connection.add_operation
        rw [if_neg (by decide), if_neg (by decide)]
        simp [h]
      rw [hc, hc]
    | some op =>
      by_cases hb : op.op_type = some (.str "BIND") ∧ alget data "err" = some (.int 0)
      · simp [Connection.add_operation, h, hb, alget_alset_self, alset_alset]
      · simp [Connection.add_operation, h, hb, alget_alset_self, alset_alset]

/-- C10: a RESULT event for a stored operation id overwrites the attached
`result` with the incoming event's attribute dictionary, whatever `result`
held before (the stored `op` is arbitrary here, so in particular one whose
`result` was already populated); consequently, applying two RESULT events
with different attribute maps leaves the attributes of the LAST one, as the
second conjunct shows. -/
theorem c10_last_result_wins (c : Connection) (opn : Value) (op : Operation)
    (ts1 ts2 extra1 extra2 : Option Value) (d1 d2 : Dict)
    (hop : alget c.operations opn = some op) :
    alget (c.add_operation (some opn) (some (.str "RESULT")) ts1 d1 extra1).operations opn
      = some { op with result := some d1 }
    ∧ alget ((c.add_operation (some opn) (some (.str "RESULT")) ts1 d1 extra1).add_operation
          (some opn) (some (.str "RESULT")) ts2 d2 extra2).operations opn
      = some { op with result := some d2 } := by
  have step : ∀ (c' : Connection) (op' : Operation) (ts' extra' : Option Value) (d' : Dict),
      alget c'.operations opn = some op' →
      alget (c'.add_operation (some opn) (some (.str "RESULT")) ts' d' extra').operations opn
        = some { op' with result := some d' } := by
    intro c' op' ts' extra' d' h'
    by_cases hb : op'.op_type = some (.str "BIND") ∧ alget d' "err" = some (.int 0)
    · simp [Connection.add_operation, h', hb, alget_alset_self]
    · simp [Connection.add_operation, h', hb, alget_alset_self]
  refine ⟨step c op ts1 extra1 d1 hop, ?_⟩
  have h1 := step c op ts1 extra1 d1 hop
  have h2 := step _ _ ts2 extra2 d2 h1
  simpa using h2

/-- C2, counterexample: the claim says `successful_bind`/`bind_dn`/
`bind_timestamp` are never changed once set, but after a first successful
BIND/RESULT pair sets `bind_dn = "uid=a"` and `bind_timestamp` to the first
BIND's instant, a second successful BIND/RESULT pair on another operation id
overwrites both with the second BIND's dn and timestamp. -/
theorem c2_counterexample :
    (alget (build_data_model
        ["[10/Jun/2025:21:18:06.100000Z] conn=100 op=0 BIND dn=\"uid=a\" method=128",
         "[10/Jun/2025:21:18:06.200000Z] conn=100 op=0 RESULT err=0 tag=97 nentries=1"])
        (.int 100)).map (fun c => (c.bind_dn, c.bind_timestamp))
      = some (some (.str "uid=a"), some (.ts ⟨2025, 6, 10, 21, 18, 6, 100000, 0⟩))
    ∧ (alget (build_data_model
        ["[10/Jun/2025:21:18:06.100000Z] conn=100 op=0 BIND dn=\"uid=a\" method=128",
         "[10/Jun/2025:21:18:06.200000Z] conn=100 op=0 RESULT err=0 tag=97 nentries=1",
         "[10/Jun/2025:21:18:06.300000Z] conn=100 op=1 BIND dn=\"uid=b\" method=128",
         "[10/Jun/2025:21:18:06.400000Z] conn=100 op=1 RESULT err=0 tag=97 nentries=1"])
        (.int 100)).map (fun c => (c.bind_dn, c.bind_timestamp))
      = some (some (.str "uid=b"), some (.ts ⟨2025, 6, 10, 21, 18, 6, 300000, 0⟩))
    ∧ (Value.str "uid=b" ≠ .str "uid=a")
    ∧ (Value.ts ⟨2025, 6, 10, 21, 18, 6, 300000, 0⟩ ≠ .ts ⟨2025, 6, 10, 21, 18, 6, 100000, 0⟩) := by
  refine ⟨rfl, rfl, by decide, by decide⟩

/-- C2, amended: `successful_bind` only ever transitions from `false` to
`true` and is never reverted (second conjunct, over every possible event);
but `bind_dn` and `bind_timestamp` are not write-once — they are recomputed
on EVERY RESULT with `err = 0` that correlates to a stored BIND operation
(first conjunct, for an arbitrary prior connection state, so in particular
one whose bind fields were already set): the last successful bind
correlation wins, and `bind_dn` can even be reassigned to `none` when
neither the RESULT nor the BIND carries a `dn` attribute. -/
theorem c2_amended (c : Connection) (opn : Value) (op : Operation)
    (ts extra : Option Value) (data : Dict)
    (hop : alget c.operations opn = some op)
    (hbind : op.op_type = some (.str "BIND"))
    (herr : alget data "err" = some (.int 0)) :
    ((c.add_operation (some opn) (some (.str "RESULT")) ts data extra).successful_bind = true
      ∧ (c.add_operation (some opn) (some (.str "RESULT")) ts data extra).bind_timestamp
          = op.timestamp
      ∧ (c.add_operation (some opn) (some (.str "RESULT")) ts data extra).bind_dn
          = (match alget data "dn" with
             | some v => some v
             | none => alget op.data "dn"))
    ∧ (∀ (c₂ : Connection) (op_num op_type ts₂ extra₂ : Option Value) (data₂ : Dict),
        c₂.successful_bind = true →
        (c₂.add_operation op_num op_type ts₂ data₂ extra₂).successful_bind = true) := by
  constructor
  · have hcond : op.op_type = some (.str "BIND") ∧ alget data "err" = some (.int 0) :=
      ⟨hbind, herr⟩
    refine ⟨?_, ?_, ?_⟩ <;> simp [Connection.add_operation, hop, hcond]
  · intro c₂ op_num op_type ts₂ extra₂ data₂ h
    unfold Connection.add_operation
    repeat' split
    all_goals first | exact h | rfl

/-- C5: for operation-storing kinds (anything other than RESULT,
CONNECTION_INFO and Disconnect — the latter two are never stored as
Operations and act on the connection itself), the first event with a given
operation id creates the Operation record with exactly that event's kind,
timestamp, attributes and free text (first conjunct); a second such event
with the same operation id leaves the whole connection state unchanged
(second conjunct); and a later RESULT still attaches its attributes to the
first-retained Operation record (third conjunct). -/
theorem c5_first_occurrence_wins (c c₀ : Connection) (opn : Value) (op : Operation)
    (kty : String) (ts extra tsB extraB tsR extraR : Option Value) (data dataB dataR : Dict)
    (hk1 : kty ≠ "RESULT") (hk2 : kty ≠ "CONNECTION_INFO") (hk3 : kty ≠ "Disconnect")
    (hnew : alget c₀.operations opn = none)
    (hop : alget c.operations opn = some op) :
    (c₀.add_operation (some opn) (some (.str kty)) ts data extra).operations
      = alset c₀.operations opn ⟨opn, some (.str kty), ts, data, extra, none⟩
    ∧ c.add_operation (some opn) (some (.str kty)) tsB dataB extraB = c
    ∧ alget (c.add_operation (some opn) (some (.str "RESULT")) tsR dataR extraR).operations opn
      = some { op with result := some dataR } := by
  refine ⟨?_, ?_, ?_⟩
  · simp [Connection.add_operation, hk1, hk2, hk3, hnew]
  · simp [Connection.add_operation, hk1, hk2, hk3, hop]
  · by_cases hb : op.op_type = some (.str "BIND") ∧ alget dataR "err" = some (.int 0)
    · simp [Connection.add_operation, hop, hb, alget_alset_self]
    · simp [Connection.add_operation, hop, hb, alget_alset_self]

/-- C4: a RESULT with `err = 0` correlating to a stored BIND operation sets
`successful_bind`, takes `bind_timestamp` from the BIND operation's own
timestamp (not from the RESULT event), and takes `bind_dn` from the RESULT's
`dn` attribute if present, else from the BIND operation's own `dn` attribute
(first conjunct); the two log lines of Scenario 1 produce
`successful_bind = true`, `bind_dn = "uid=test,ou=people,dc=example,dc=com"`
and `bind_timestamp` equal to the BIND line's instant, whose microsecond
field 100000 is the BIND line's, not the RESULT line's 200000 (second
conjunct). -/
theorem c4_bind_result_correlation (c : Connection) (opn : Value) (op : Operation)
    (ts extra : Option Value) (data : Dict)
    (hop : alget c.operations opn = some op)
    (hbind : op.op_type = some (.str "BIND"))
    (herr : alget data "err" = some (.int 0)) :
    ((c.add_operation (some opn) (some (.str "RESULT")) ts data extra).successful_bind = true
      ∧ (c.add_operation (some opn) (some (.str "RESULT")) ts data extra).bind_timestamp
          = op.timestamp
      ∧ (c.add_operation (some opn) (some (.str "RESULT")) ts data extra).bind_dn
          = (match alget data "dn" with
             | some v => some v
             | none => alget op.data "dn"))
    ∧ (alget (build_data_model
        ["[10/Jun/2025:21:18:06.100000Z] conn=100 op=0 BIND dn=\"uid=test,ou=people,dc=example,dc=com\" method=128 version=3",
         "[10/Jun/2025:21:18:06.200000Z] conn=100 op=0 RESULT err=0 tag=97 nentries=1 etime=0.0"])
        (.int 100)).map (fun cn => (cn.successful_bind, cn.bind_dn, cn.bind_timestamp))
      = some (true, some (.str "uid=test,ou=people,dc=example,dc=com"),
              some (.ts ⟨2025, 6, 10, 21, 18, 6, 100000, 0⟩)) := by
  constructor
  · have hcond : op.op_type = some (.str "BIND") ∧ alget data "err" = some (.int 0) :=
      ⟨hbind, herr⟩
    refine ⟨?_, ?_, ?_⟩ <;> simp [Connection.add_operation, hop, hcond]
  · rfl

/-- C8: a line whose bracketed timestamp fails to parse is dropped by the
`build_data_model` loop with no change whatsoever to the connection registry
(first conjunct, for an arbitrary registry — the loop body is a total
function, so the pass never aborts); a timestamp with an unknown month
abbreviation fails to parse (second conjunct), as does one lacking the
mandatory timezone suffix (third conjunct). -/
theorem c8_failed_timestamp_line_dropped (conns : Registry) (line : String)
    (h : parse_log_line (stripStr line) = none) :
    processLine conns line = conns
    ∧ parse_log_line "[10/Foo/2025:21:18:06.100000Z] conn=100 op=0 BIND" = none
    ∧ parse_log_line "[10/Jun/2025:21:18:06.100000] conn=100 op=0 BIND" = none := by
  refine ⟨?_, by decide, by decide⟩
  unfold processLine
  dsimp only
  split
  · rfl
  · rw [h]

/-- Witness for C8: both the unknown-month line and the missing-timezone
line leave a nonempty registry untouched. -/
theorem c8_failed_timestamp_line_dropped_witness :
    processLine [(.int 7, Connection.init (.int 7))]
        "[10/Foo/2025:21:18:06.100000Z] conn=100 op=0 BIND"
      = [(.int 7, Connection.init (.int 7))]
    ∧ processLine [(.int 7, Connection.init (.int 7))]
        "[10/Jun/2025:21:18:06.100000] conn=100 op=0 BIND"
      = [(.int 7, Connection.init (.int 7))] :=
  ⟨(c8_failed_timestamp_line_dropped _ _ (by decide)).1,
   (c8_failed_timestamp_line_dropped _ _ (by decide)).1⟩

/-- Witness for C2 (amended): the reassignment clause instantiated on a
concrete connection whose operation 0 is a stored BIND. -/
theorem c2_amended_witness :
    (demoConn.add_operation (some (.int 0)) (some (.str "RESULT")) none
        [("err", .int 0), ("dn", .str "uid=x")] none).successful_bind = true
    ∧ (demoConn.add_operation (some (.int 0)) (some (.str "RESULT")) none
        [("err", .int 0), ("dn", .str "uid=x")] none).bind_timestamp = demoBindOp.timestamp
    ∧ (demoConn.add_operation (some (.int 0)) (some (.str "RESULT")) none
        [("err", .int 0), ("dn", .str "uid=x")] none).bind_dn
      = (match alget [("err", .int 0), ("dn", .str "uid=x")] "dn" with
         | some v => some v
         | none => alget demoBindOp.data "dn") :=
  (c2_amended demoConn (.int 0) demoBindOp none none
    [("err", .int 0), ("dn", .str "uid=x")] (by decide) (by decide) (by decide)).1

/-- Witness for C4: the correlation clause instantiated on a concrete
connection whose operation 0 is a stored BIND and a RESULT without `dn`. -/
theorem c4_bind_result_correlation_witness :
    (demoConn.add_operation (some (.int 0)) (some (.str "RESULT")) none
        [("err", .int 0)] none).successful_bind = true
    ∧ (demoConn.add_operation (some (.int 0)) (some (.str "RESULT")) none
        [("err", .int 0)] none).bind_timestamp = demoBindOp.timestamp
    ∧ (demoConn.add_operation (some (.int 0)) (some (.str "RESULT")) none
        [("err", .int 0)] none).bind_dn
      = (match alget [("err", .int 0)] "dn" with
         | some v => some v
         | none => alget demoBindOp.data "dn") :=
  (c4_bind_result_correlation demoConn (.int 0) demoBindOp none none
    [("err", .int 0)] (by decide) (by decide) (by decide)).1

/-- Witness for C5: a duplicate BIND for the already-present operation id 0
leaves the connection state unchanged. -/
theorem c5_first_occurrence_wins_witness :
    demoConn.add_operation (some (.int 0)) (some (.str "BIND")) none
        [("dn", .str "uid=dup")] none = demoConn :=
  (c5_first_occurrence_wins demoConn (Connection.init (.int 2)) (.int 0) demoBindOp
    "BIND" none none none none none none [] [("dn", .str "uid=dup")] []
    (by decide) (by decide) (by decide) (by decide) (by decide)).2.1

/-- Witness for C6: an orphan RESULT for operation id 5 (absent from
`demoConn`) is a no-op. -/
theorem c6_orphan_result_noop_witness :
    demoConn.add_operation (some (.int 5)) (some (.str "RESULT")) none
        [("err", .int 0)] none = demoConn :=
  (c6_orphan_result_noop demoConn (.int 5) none none [("err", .int 0)] (by decide)).1

/-! ## Lemmas for the tokenizer value-handling claim -/

theorem alget_foldl_alset (pairs : List (String × String)) (d : Dict) (f : String → Value)
    (k : String) :
    alget (pairs.foldl (fun d kv => alset d kv.1 (f kv.2)) d) k
      = (match lastRawValue pairs k with
         | some v => some (f v)
         | none => alget d k) := by
  induction pairs generalizing d with
  | nil => simp [lastRawValue]
  | cons kv ps ih =>
    simp only [List.foldl_cons, lastRawValue]
    rw [ih]
    cases h : lastRawValue ps k with
    | some w => simp
    | none =>
      by_cases hk : kv.1 = k
      · subst hk
        simp [alget_alset_self]
      · simp [hk, alget_alset_ne _ _ _ _ hk]

theorem alget_map_coerce (d : Dict) (k : String) :
    alget (d.map fun kv => (kv.1, coerceVal kv.2)) k = (alget d k).map coerceVal := by
  induction d with
  | nil => simp [alget]
  | cons hd tl ih =>
    obtain ⟨k0, v0⟩ := hd
    by_cases h : k0 = k <;> simp [alget, h, ih]

/-- Except for the four keys written by the classification stage (`type`,
`extra_text`, `source_ip`, `destination_ip`), the classification stage does
not touch any entry of the key=value dictionary. -/
theorem alget_classifyStage (data : Dict) (et : List Char) (k : String)
    (h1 : k ≠ "type") (h2 : k ≠ "extra_text") (h3 : k ≠ "source_ip")
    (h4 : k ≠ "destination_ip") :
    alget (classifyStage data et) k = alget data k := by
  have hT : ∀ (d : Dict) (v : Value), alget (alset d "type" v) k = alget d k :=
    fun d v => alget_alset_ne d k "type" v (Ne.symm h1)
  have hE : ∀ (d : Dict) (v : Value), alget (alset d "extra_text" v) k = alget d k :=
    fun d v => alget_alset_ne d k "extra_text" v (Ne.symm h2)
  have hS : ∀ (d : Dict) (v : Value), alget (alset d "source_ip" v) k = alget d k :=
    fun d v => alget_alset_ne d k "source_ip" v (Ne.symm h3)
  have hD : ∀ (d : Dict) (v : Value), alget (alset d "destination_ip" v) k = alget d k :=
    fun d v => alget_alset_ne d k "destination_ip" v (Ne.symm h4)
  unfold classifyStage
  split
  · dsimp only
    repeat' split
    all_goals simp [hT, hE, hS, hD]
  · split <;> simp [hT]

/-- C3, counterexample: the claim says a double-quoted value is kept as a
string verbatim with no numeric coercion, but the coercion pass runs after
quote stripping and does not know the value was quoted: `dn="123"` is stored
as the integer 123, not the string "123". -/
theorem c3_counterexample :
    alget (parse_key_value_message "conn=1 op=0 BIND dn=\"123\"") "dn" = some (.int 123)
    ∧ Value.int 123 ≠ .str "123" := by
  exact ⟨rfl, by decide⟩

/-- C3, amended: every attribute produced by a key=value match (any key the
classification stage does not itself write, i.e. other than `type`,
`extra_text`, `source_ip`, `destination_ip`) is stored as the raw matched
token with surrounding double quotes stripped and THEN subjected to numeric
coercion — a value that after quote stripping consists solely of digits, or
of a leading `-` followed solely by digits, becomes an integer whether it
was quoted or not; all other values remain strings.  (`coerceStr` is exactly
that digit test, and `lastRawValue` picks the last match for the key, since
later `data[key] = value` assignments shadow earlier ones.) -/
theorem c3_amended (message : String) (k : String)
    (h1 : k ≠ "type") (h2 : k ≠ "extra_text") (h3 : k ≠ "source_ip")
    (h4 : k ≠ "destination_ip") :
    alget (parse_key_value_message message) k
      = (lastRawValue (scanKV message.toList).1 k).map
          (fun raw => coerceStr (String.mk (stripQuotesL raw.toList))) := by
  unfold parse_key_value_message
  rw [alget_map_coerce, alget_classifyStage _ _ _ h1 h2 h3 h4,
    alget_foldl_alset (scanKV message.toList).1 []
      (fun raw => Value.str (String.mk (stripQuotesL raw.toList))) k]
  cases h : lastRawValue (scanKV message.toList).1 k with
  | none => simp [alget]
  | some raw => simp [coerceVal]

/-- Witness for C3 (amended): on a concrete message the stored value of the
unquoted key `tag` is the coerced raw token. -/
theorem c3_amended_witness :
    alget (parse_key_value_message "conn=1 op=0 RESULT err=0 tag=97 details=\"x y\"") "tag"
      = (lastRawValue (scanKV ("conn=1 op=0 RESULT err=0 tag=97 details=\"x y\"").toList).1
          "tag").map (fun raw => coerceStr (String.mk (stripQuotesL raw.toList))) :=
  c3_amended "conn=1 op=0 RESULT err=0 tag=97 details=\"x y\"" "tag"
    (by decide) (by decide) (by decide) (by decide)

/-! ## Lemmas for the timestamp round-trip claim -/

theorem digitChar_spec (k : Nat) (h : k < 10) :
    isDigitChar (digitChar k) = true ∧ digitVal (digitChar k) = k := by
  interval_cases k <;> exact ⟨by decide, by decide⟩

theorem readDigits_twoDigits (n acc : Nat) (rest : List Char) (h : n < 100) :
    readDigits 2 acc (twoDigits n ++ rest) = some (acc * 100 + n, rest) := by
  obtain ⟨d1a, d1b⟩ := digitChar_spec (n / 10) (by omega)
  obtain ⟨d2a, d2b⟩ := digitChar_spec (n % 10) (by omega)
  simp [twoDigits, readDigits, d1a, d1b, d2a, d2b]
  omega

theorem readDigits_fourDigits (n acc : Nat) (rest : List Char) (h : n < 10000) :
    readDigits 4 acc (fourDigits n ++ rest) = some (acc * 10000 + n, rest) := by
  obtain ⟨d1a, d1b⟩ := digitChar_spec (n / 1000) (by omega)
  obtain ⟨d2a, d2b⟩ := digitChar_spec (n / 100 % 10) (by omega)
  obtain ⟨d3a, d3b⟩ := digitChar_spec (n / 10 % 10) (by omega)
  obtain ⟨d4a, d4b⟩ := digitChar_spec (n % 10) (by omega)
  simp [fourDigits, readDigits, d1a, d1b, d2a, d2b, d3a, d3b, d4a, d4b]
  omega

theorem expectChar_cons (c : Char) (rest : List Char) :
    expectChar c (c :: rest) = some rest := by
  simp [expectChar]

theorem readWord3_cons (c1 c2 c3 : Char) (rest : List Char)
    (h1 : isWordChar c1 = true) (h2 : isWordChar c2 = true) (h3 : isWordChar c3 = true) :
    readWord3 (c1 :: c2 :: c3 :: rest) = some (String.mk [c1, c2, c3], rest) := by
  simp [readWord3, h1, h2, h3]

theorem takeWhile_digits_append (ds rest : List Char)
    (hds : ∀ c ∈ ds, isDigitChar c = true)
    (hrest : ∀ c, rest.head? = some c → isDigitChar c = false) :
    (ds ++ rest).takeWhile isDigitChar = ds ∧ (ds ++ rest).drop ds.length = rest := by
  induction ds with
  | nil =>
    refine ⟨?_, by simp⟩
    cases rest with
    | nil => simp
    | cons r rs => simp [List.takeWhile, hrest r rfl]
  | cons c cs ih =>
    have hc := hds c (by simp)
    have hcs : ∀ c ∈ cs, isDigitChar c = true := fun c hmem => hds c (by simp [hmem])
    obtain ⟨ih1, ih2⟩ := ih hcs
    refine ⟨?_, by simpa using ih2⟩
    simp [List.takeWhile, hc, ih1]

/-- The head of a rendered timezone literal is not a digit, not whitespace
and not a dot. -/
theorem zoneChars_head (z : ZoneLit) :
    ∃ c cs, zoneChars z = c :: cs
      ∧ isDigitChar c = false ∧ isSpaceChar c = false ∧ c ≠ '.' := by
  cases z with
  | utcZ => exact ⟨'Z', [], rfl, by decide, by decide, by decide⟩
  | utcz => exact ⟨'z', [], rfl, by decide, by decide, by decide⟩
  | pos hh mm => exact ⟨'+', twoDigits hh ++ twoDigits mm, rfl, by decide, by decide, by decide⟩
  | neg hh mm => exact ⟨'-', twoDigits hh ++ twoDigits mm, rfl, by decide, by decide, by decide⟩

theorem readTz_zoneChars (z : ZoneLit) (hz : zoneDigitsOK z) :
    readTz (zoneChars z) = some (zoneOffset z) := by
  cases z with
  | utcZ => rfl
  | utcz => rfl
  | pos hh mm =>
    obtain ⟨hhh, hmm⟩ := hz
    have h1 := readDigits_twoDigits hh 0 (twoDigits mm) hhh
    have h2 : readDigits 2 0 (twoDigits mm) = some (mm, []) := by
      have := readDigits_twoDigits mm 0 [] hmm
      simpa using this
    unfold readTz
    rw [if_neg (by simp [zoneChars, twoDigits])]
    simp [zoneChars, h1, h2, zoneOffset]
  | neg hh mm =>
    obtain ⟨hhh, hmm⟩ := hz
    have h1 := readDigits_twoDigits hh 0 (twoDigits mm) hhh
    have h2 : readDigits 2 0 (twoDigits mm) = some (mm, []) := by
      have := readDigits_twoDigits mm 0 [] hmm
      simpa using this
    unfold readTz
    rw [if_neg (by simp [zoneChars, twoDigits])]
    simp [zoneChars, h1, h2, zoneOffset]

set_option maxHeartbeats 2000000 in
/-- C9: parsing a rendered valid literal of the grammar
`DD/Mon/YYYY:HH:MM:SS[.fraction](Z|±HHMM)` recovers the exact instant:
every calendar field is recovered, `Z`/`z` yields offset 0 (UTC), `±HHMM`
yields `sign * (HH hours + MM minutes)` minutes, the three-letter month
abbreviation is looked up case-insensitively (`monthLookup` capitalizes
first, and any casing accepted by it works — the witness uses `jUN`), a
fractional part is truncated or right-padded to 6 digits of microseconds,
and an absent fraction means zero microseconds.  Validity means: a month
abbreviation known to `monthLookup`, a calendar-valid day for the
month/year, `hour < 24`, `minute < 60`, `second < 60`, a nonempty all-digit
fraction when present, two-digit offset fields, and an offset within ±24
hours (Python's `timezone` constructor rejects larger ones and the line
would be dropped). -/
theorem c9_timestamp_round_trip (d y h mi s m : Nat) (c1 c2 c3 : Char)
    (frac : Option (List Char)) (z : ZoneLit)
    (hw1 : isWordChar c1 = true) (hw2 : isWordChar c2 = true) (hw3 : isWordChar c3 = true)
    (hmon : monthLookup (String.mk [c1, c2, c3]) = some m)
    (hy1 : 1 ≤ y) (hy2 : y < 10000)
    (hd1 : 1 ≤ d) (hd2 : d ≤ daysInMonth y m)
    (hh : h < 24) (hmi : mi < 60) (hs : s < 60)
    (hfrac : ∀ ds, frac = some ds → ds ≠ [] ∧ ∀ c ∈ ds, isDigitChar c = true)
    (hz : zoneDigitsOK z) (hzlo : -1440 < zoneOffset z) (hzhi : zoneOffset z < 1440) :
    parse_timestamp (String.mk (fmtTsChars d [c1, c2, c3] y h mi s frac z))
      = some { year := y, month := m, day := d, hour := h, minute := mi, second := s,
               microsecond :=
                 match frac with
                 | none => 0
                 | some ds =>
                   natOfDigitChars (ds.take 6 ++ List.replicate (6 - (ds.take 6).length) '0'),
               offsetMinutes := zoneOffset z } := by
  have hd100 : d < 100 := by
    have : daysInMonth y m ≤ 31 := by
      unfold daysInMonth
      repeat' split
      all_goals omega
    omega
  obtain ⟨zc, zcs, hzeq, hzd, hzs, hzdot⟩ := zoneChars_head z
  have hfr : readFrac (fracPart frac ++ zoneChars z)
      = ((match frac with
          | none => 0
          | some ds => natOfDigitChars (ds.take 6 ++ List.replicate (6 - (ds.take 6).length) '0')),
         zoneChars z) := by
    cases frac with
    | none =>
      rw [hzeq]
      simp only [fracPart, List.nil_append]
      unfold readFrac
      split
      · rename_i rest heq
        injection heq with a b
        exact absurd a hzdot
      · rfl
    | some ds =>
      obtain ⟨hne, hdig⟩ := hfrac ds rfl
      have htw := takeWhile_digits_append ds (zoneChars z) hdig
        (by intro c hc; rw [hzeq] at hc; simp at hc; rw [hc] at hzd; exact hzd)
      simp only [fracPart, List.cons_append]
      unfold readFrac
      simp only [htw.1, htw.2]
      rw [if_neg (by simpa using hne)]
      rfl
  have hsp : (zoneChars z).dropWhile isSpaceChar = zoneChars z := by
    rw [hzeq]
    simp [List.dropWhile, hzs]
  unfold parse_timestamp parse_timestamp_chars fmtTsChars
  rw [String.toList]
  dsimp only
  simp only [Option.bind_eq_bind]
  rw [readDigits_twoDigits d 0 _ hd100]
  simp only [Option.some_bind, Nat.zero_mul, Nat.zero_add]
  rw [expectChar_cons]
  simp only [Option.some_bind, List.cons_append, List.nil_append]
  rw [readWord3_cons c1 c2 c3 _ hw1 hw2 hw3]
  simp only [Option.some_bind]
  rw [expectChar_cons]
  simp only [Option.some_bind]
  rw [readDigits_fourDigits y 0 _ hy2]
  simp only [Option.some_bind, Nat.zero_mul, Nat.zero_add]
  rw [expectChar_cons]
  simp only [Option.some_bind]
  rw [readDigits_twoDigits h 0 _ (by omega : h < 100)]
  simp only [Option.some_bind, Nat.zero_mul, Nat.zero_add]
  rw [expectChar_cons]
  simp only [Option.some_bind]
  rw [readDigits_twoDigits mi 0 _ (by omega : mi < 100)]
  simp only [Option.some_bind, Nat.zero_mul, Nat.zero_add]
  rw [expectChar_cons]
  simp only [Option.some_bind]
  rw [readDigits_twoDigits s 0 _ (by omega : s < 100)]
  simp only [Option.some_bind, Nat.zero_mul, Nat.zero_add]
  rw [hfr]
  dsimp only
  rw [hsp, readTz_zoneChars z hz]
  simp only [Option.some_bind]
  rw [hmon]
  simp only [Option.some_bind]
  rw [if_pos ⟨hy1, by omega, hd1, hd2, by omega, by omega, by omega, hzlo, hzhi⟩]

/-- Witness for C9: three concrete literals — a `Z` (UTC) literal without a
fraction, a `+0200` literal with a six-digit fraction and a case-mangled
month `jUN`, and a `-0500` literal with a short fraction that is
right-padded (`.5` means 500000 microseconds). -/
theorem c9_timestamp_round_trip_witness :
    parse_timestamp (String.mk (fmtTsChars 10 ['J', 'u', 'n'] 2025 21 18 6 none .utcZ))
      = some { year := 2025, month := 6, day := 10, hour := 21, minute := 18, second := 6,
               microsecond := 0, offsetMinutes := 0 }
    ∧ parse_timestamp (String.mk (fmtTsChars 10 ['j', 'U', 'N'] 2025 11 6 44
        (some ['7', '1', '1', '8', '5', '9']) (.pos 2 0)))
      = some { year := 2025, month := 6, day := 10, hour := 11, minute := 6, second := 44,
               microsecond := 711859, offsetMinutes := 120 }
    ∧ parse_timestamp (String.mk (fmtTsChars 31 ['D', 'e', 'c'] 1999 23 59 59
        (some ['5']) (.neg 5 0)))
      = some { year := 1999, month := 12, day := 31, hour := 23, minute := 59, second := 59,
               microsecond := 500000, offsetMinutes := -300 } := by
  refine ⟨?_, ?_, ?_⟩
  · exact c9_timestamp_round_trip 10 2025 21 18 6 6 'J' 'u' 'n' none .utcZ
      (by decide) (by decide) (by decide) (by decide) (by decide) (by decide) (by decide)
      (by decide) (by decide) (by decide) (by decide)
      (by intro ds hds; cases hds) (by trivial) (by decide) (by decide)
  · exact c9_timestamp_round_trip 10 2025 11 6 44 6 'j' 'U' 'N'
      (some ['7', '1', '1', '8', '5', '9']) (.pos 2 0)
      (by decide) (by decide) (by decide) (by decide) (by decide) (by decide) (by decide)
      (by decide) (by decide) (by decide) (by decide)
      (by intro ds hds; cases hds; exact ⟨by decide, by decide⟩)
      (by exact ⟨by omega, by omega⟩) (by decide) (by decide)
  · exact c9_timestamp_round_trip 31 1999 23 59 59 12 'D' 'e' 'c'
      (some ['5']) (.neg 5 0)
      (by decide) (by decide) (by decide) (by decide) (by decide) (by decide) (by decide)
      (by decide) (by decide) (by decide) (by decide)
      (by intro ds hds; cases hds; exact ⟨by decide, by decide⟩)
      (by exact ⟨by omega, by omega⟩) (by decide) (by decide)

/-- Witness for C10: two RESULT events with different attribute maps leave
the attributes of the second one attached. -/
theorem c10_last_result_wins_witness :
    alget ((demoConn.add_operation (some (.int 0)) (some (.str "RESULT")) none
          [("err", .int 1)] none).add_operation (some (.int 0)) (some (.str "RESULT")) none
          [("err", .int 2)] none).operations (.int 0)
      = some { demoBindOp with result := some [("err", .int 2)] } :=
  (c10_last_result_wins demoConn (.int 0) demoBindOp none none none none
    [("err", .int 1)] [("err", .int 2)] (by decide)).2

end LogAnalyser
